import Mathlib

/-!
Verification of the force-directed bubble visualization core of the
`bubbles` repository (`src/components/BubbleChart.tsx`,
`src/components/StatsPanel.tsx`) against its design specification.

The TypeScript source computes with JavaScript numbers, where the special
values `Infinity` and `NaN` matter for the sizing normalizer (zero-activity
profiles are mapped to `Infinity` before the min computation).  We embed
JavaScript numbers as exact rationals extended with `+Infinity`, `-Infinity`
and `NaN`; on the finite values the arithmetic of the embedded program is
exact enough that rounding never affects any property checked here (all
bounds are preserved by monotone rounding), so the rational model is
faithful for the stated claims.
-/

/-- JavaScript `number` restricted to the values this program can produce:
a finite value (modelled exactly as a rational), the two infinities, or NaN. -/
inductive JsNum where
  | num (q : ℚ)
  | inf
  | ninf
  | nan
deriving DecidableEq, Repr

namespace JsNum

/-- JavaScript `+` on numbers. -/
def add : JsNum → JsNum → JsNum
  | nan, _ => nan
  | _, nan => nan
  | inf, ninf => nan
  | ninf, inf => nan
  | inf, _ => inf
  | _, inf => inf
  | ninf, _ => ninf
  | _, ninf => ninf
  | num a, num b => num (a + b)

/-- JavaScript `-` on numbers. -/
def sub : JsNum → JsNum → JsNum
  | nan, _ => nan
  | _, nan => nan
  | inf, inf => nan
  | ninf, ninf => nan
  | inf, _ => inf
  | ninf, _ => ninf
  | num _, inf => ninf
  | num _, ninf => inf
  | num a, num b => num (a - b)

/-- JavaScript `*` on numbers (sign conventions of IEEE 754; `0 * ±∞ = NaN`). -/
def mul : JsNum → JsNum → JsNum
  | nan, _ => nan
  | _, nan => nan
  | inf, inf => inf
  | inf, ninf => ninf
  | ninf, inf => ninf
  | ninf, ninf => inf
  | inf, num b => if b > 0 then inf else if b < 0 then ninf else nan
  | num a, inf => if a > 0 then inf else if a < 0 then ninf else nan
  | ninf, num b => if b > 0 then ninf else if b < 0 then inf else nan
  | num a, ninf => if a > 0 then ninf else if a < 0 then inf else nan
  | num a, num b => num (a * b)

/-- JavaScript `/` on numbers (`∞/∞ = NaN`, `x/0 = ±∞` for `x ≠ 0`, `0/0 = NaN`).
The model ignores the sign of zero (the embedded program never divides by a
negative zero). -/
def div : JsNum → JsNum → JsNum
  | nan, _ => nan
  | _, nan => nan
  | inf, inf => nan
  | inf, ninf => nan
  | ninf, inf => nan
  | ninf, ninf => nan
  | inf, num b => if b ≥ 0 then inf else ninf
  | ninf, num b => if b ≥ 0 then ninf else inf
  | num _, inf => num 0
  | num _, ninf => num 0
  | num a, num b =>
      if b = 0 then (if a > 0 then inf else if a < 0 then ninf else nan)
      else num (a / b)

/-- JavaScript `===` on numbers: `NaN` is not equal to anything, the two
infinities are each equal to themselves, finite values compare exactly. -/
def strictEq : JsNum → JsNum → Bool
  | nan, _ => false
  | _, nan => false
  | inf, inf => true
  | inf, _ => false
  | _, inf => false
  | ninf, ninf => true
  | ninf, _ => false
  | _, ninf => false
  | num a, num b => a = b

/-- Binary `Math.max`: NaN-propagating maximum. -/
def max2 : JsNum → JsNum → JsNum
  | nan, _ => nan
  | _, nan => nan
  | inf, _ => inf
  | _, inf => inf
  | ninf, b => b
  | a, ninf => a
  | num a, num b => num (max a b)

/-- Binary `Math.min`: NaN-propagating minimum. -/
def min2 : JsNum → JsNum → JsNum
  | nan, _ => nan
  | _, nan => nan
  | ninf, _ => ninf
  | _, ninf => ninf
  | inf, b => b
  | a, inf => a
  | num a, num b => num (min a b)

/-- Spread maximum `Math.max(...xs)`: the empty call returns `-Infinity`. -/
def maxList (xs : List JsNum) : JsNum := xs.foldl max2 ninf

/-- Spread minimum `Math.min(...xs)`: the empty call returns `+Infinity`. -/
def minList (xs : List JsNum) : JsNum := xs.foldl min2 inf

/-- Rounding `Math.round` (the program only rounds values obtained from divisions by a
positive count, so ties toward `+∞` on finite values suffices). -/
def round : JsNum → JsNum
  | num q => num (⌊q + 1/2⌋ : ℤ)
  | x => x

end JsNum

/-- A profile record as consumed by the chart: the fields of the source's
`Profile` interface that carry algorithmic weight.  `activity` is the raw
event count for the active timeframe (a finite JavaScript number; the
fetch layer produces the length of an event array, hence a non-negative
value, but none of the theorems below need that). -/
structure Profile where
  pubkey : String
  name : String
  activity : ℚ
  npub : String
deriving DecidableEq, Repr

/-- Source line `const maxActivity = Math.max(...data.map(d => d.activity))`
(BubbleChart.tsx line 92). -/
def maxActivity (data : List Profile) : JsNum :=
  JsNum.maxList (data.map (fun d => JsNum.num d.activity))

/-- Source line `const minActivity = Math.min(...data.map(d => d.activity > 0 ? d.activity : Infinity))`
(BubbleChart.tsx line 93): zero (and negative) activities are replaced by
`Infinity` before taking the minimum. -/
def minActivity (data : List Profile) : JsNum :=
  JsNum.minList (data.map (fun d =>
    if d.activity > 0 then JsNum.num d.activity else JsNum.inf))

/-- Source constant `const MIN_BUBBLE_SIZE = 10` (BubbleChart.tsx line 96). -/
def MIN_BUBBLE_SIZE : JsNum := JsNum.num 10

/-- Source constant `const MAX_BUBBLE_SIZE = 60` (BubbleChart.tsx line 97). -/
def MAX_BUBBLE_SIZE : JsNum := JsNum.num 60

/-- The source's `normalizeActivity` (BubbleChart.tsx lines 99-102), closed over the
`maxActivity` / `minActivity` derived from the active data set:

```
if (maxActivity === minActivity) return (MIN_BUBBLE_SIZE + MAX_BUBBLE_SIZE) / 2;
return MIN_BUBBLE_SIZE + ((activity - minActivity) / (maxActivity - minActivity))
         * (MAX_BUBBLE_SIZE - MIN_BUBBLE_SIZE);
```
-/
def normalizeActivity (data : List Profile) (activity : JsNum) : JsNum :=
  let maxA := maxActivity data
  let minA := minActivity data
  if JsNum.strictEq maxA minA then
    JsNum.div (JsNum.add MIN_BUBBLE_SIZE MAX_BUBBLE_SIZE) (JsNum.num 2)
  else
    JsNum.add MIN_BUBBLE_SIZE
      (JsNum.mul
        (JsNum.div (JsNum.sub activity minA) (JsNum.sub maxA minA))
        (JsNum.sub MAX_BUBBLE_SIZE MIN_BUBBLE_SIZE))

/-- The radii the chart emits: `normalizeActivity(d.activity)` for each
profile of the active set (used at BubbleChart.tsx lines 201 and 228). -/
def normalizeRadii (data : List Profile) : List JsNum :=
  data.map (fun d => normalizeActivity data (JsNum.num d.activity))

/-- Whether a radius value is a finite number inside `[MIN_R, MAX_R] = [10, 60]`. -/
def radiusInRange : JsNum → Bool
  | JsNum.num q => decide (10 ≤ q ∧ q ≤ 60)
  | _ => false

/-- Concrete profile sets used to evaluate the normalizer. -/
def profA (a : ℚ) : Profile := ⟨"a", "a", a, "npub-a"⟩

def profB (a : ℚ) : Profile := ⟨"b", "b", a, "npub-b"⟩

def profC (a : ℚ) : Profile := ⟨"c", "c", a, "npub-c"⟩

/-- Zero-score profile together with two distinct positive scores. -/
def dataZeroFiveTen : List Profile := [profA 0, profB 5, profC 10]

/-- The all-zero two-profile set. -/
def dataAllZero : List Profile := [profA 0, profB 0]

/-- The spec's scenario set `[{id:"a",activityScore:0}, {id:"b",activityScore:10}]`. -/
def dataZeroTen : List Profile := [profA 0, profB 10]

/-! Section: visualization controller, the rebuild effect.

`BubbleChart`'s `useEffect` (lines 41-89, 197-201) runs on every delivery of
a new profile set.  It removes every child of the persistent `<svg>` element
(`svg.selectAll('*').remove()`), and on the non-empty branch re-attaches the
`d3.zoom` behavior and constructs a fresh force simulation over the new data.

d3-zoom stores the current zoom transform as the `__zoom` property of the
DOM element the behavior is applied to; removing the element's *children*
does not touch it, and re-applying the behavior (`svg.call(zoom)`) sets
`__zoom` to its existing value when present and to the identity transform
only when the element has none yet.  We model the `<svg>` element's state
with that property made explicit. -/

/-- The pan/zoom camera state `{scale, translateX, translateY}` (d3's
`ZoomTransform {k, x, y}`). -/
structure ViewportTransform where
  scale : ℚ
  translateX : ℚ
  translateY : ℚ
deriving DecidableEq, Repr

/-- The identity transform `d3.zoomIdentity`. -/
def ViewportTransform.identity : ViewportTransform := ⟨1, 0, 0⟩

/-- The per-profile simulation node: the `Profile` datum extended by
d3-force with position `(x, y)`, velocity `(vx, vy)` and the optional pinned
position `(fx, fy)`, plus the radius the chart derives for it. -/
structure VizNode where
  pubkey : String
  radius : JsNum
  x : ℚ
  y : ℚ
  vx : ℚ
  vy : ℚ
  fx : Option ℚ
  fy : Option ℚ
deriving DecidableEq, Repr

/-- Whether a force simulation is currently installed and running
(the spec's `Idle` / `Running` distinction for this component). -/
inductive SimStatus where
  | Idle
  | Running
deriving DecidableEq, Repr

/-- The state of the persistent `<svg>` element and the objects the effect
hangs off it: the d3 `__zoom` property (absent until a zoom behavior has
been attached), the node groups currently rendered, whether the empty-data
placeholder text is shown, and whether a simulation is running. -/
structure SvgState where
  zoomTransform : Option ViewportTransform
  nodes : List VizNode
  placeholder : Bool
  simStatus : SimStatus
deriving DecidableEq, Repr

/-- A fresh simulation node for a profile: no pinned position, position and
velocity initialized by d3-force (the claims below do not depend on the
initial placement, modelled as the origin); radius from `normalizeActivity`
over the delivered set (BubbleChart.tsx line 228). -/
def mkNode (data : List Profile) (p : Profile) : VizNode :=
  { pubkey := p.pubkey
    radius := normalizeActivity data (JsNum.num p.activity)
    x := 0, y := 0, vx := 0, vy := 0
    fx := none, fy := none }

/-- One run of the effect body (BubbleChart.tsx lines 41-89, 197-201)
on delivery of the profile set `data`:
`svg.selectAll('*').remove()` clears all children (nodes, placeholder) but
leaves the element's `__zoom` property alone; if `data.length === 0` a
placeholder text is appended and the effect returns before any zoom
behavior or simulation is created; otherwise the zoom behavior is attached
(keeping an existing `__zoom`, defaulting a missing one to the identity)
and a fresh force simulation over the new nodes is started. -/
def runEffect (data : List Profile) (s : SvgState) : SvgState :=
  let cleared : SvgState :=
    { s with nodes := [], placeholder := false, simStatus := SimStatus.Idle }
  if data.isEmpty then
    { cleared with placeholder := true }
  else
    { cleared with
        zoomTransform := some (cleared.zoomTransform.getD ViewportTransform.identity)
        nodes := data.map (mkNode data)
        simStatus := SimStatus.Running }

/-- The camera state an observer of the element sees: the stored transform,
identity before any zoom behavior ever touched the element. -/
def SvgState.viewport (s : SvgState) : ViewportTransform :=
  s.zoomTransform.getD ViewportTransform.identity

/-- The radii of the currently rendered nodes. -/
def SvgState.radii (s : SvgState) : List JsNum :=
  s.nodes.map (fun n => n.radius)

/-! Section: interaction layer, drag-to-pin and the simulation tick.

The drag handlers (BubbleChart.tsx lines 209-223):

```
.on('start', (event) => {
  if (!event.active) simulation.alphaTarget(0.3).restart();
  event.subject.fx = event.subject.x;
  event.subject.fy = event.subject.y; })
.on('drag', (event) => {
  event.subject.fx = event.x;
  event.subject.fy = event.y; })
.on('end', (event) => {
  if (!event.active) simulation.alphaTarget(0);
  event.subject.fx = null;
  event.subject.fy = null; })
```

and d3-force's per-tick position integration for each node: when `fx` is
null the node integrates freely (`x += vx`), otherwise the position is
overwritten by the pin (`x = fx; vx = 0`), independently per axis.  The
forces of a tick (centering, many-body charge, collision) enter only
through the velocities they produce, so the tick event below carries an
arbitrary assignment of force-produced velocities to nodes.  The model is
single-pointer (one drag gesture at a time), matching the spec's
`InteractionState.draggedNodeId`. -/

/-- Interaction-layer state: the simulation's nodes and alpha target plus
the identity of the node a drag gesture currently holds. -/
structure DragState where
  nodes : List VizNode
  alphaTarget : ℚ
  dragged : Option String
deriving DecidableEq, Repr

/-- Events the interaction layer and the simulation deliver: the three drag
handler invocations and one simulation tick whose forces produced the
velocities `f`. -/
inductive ChartEv where
  | dragStart (i : String)
  | dragMove (i : String) (px py : ℚ)
  | dragEnd (i : String)
  | tick (f : String → ℚ × ℚ)

/-- d3-force position integration of one tick for one node, given the
velocity the tick's forces produced for it: a pinned axis snaps to the pin
and zeroes the velocity, a free axis advances by the velocity. -/
def integrateNode (v : ℚ × ℚ) (n : VizNode) : VizNode :=
  let xPart : ℚ × ℚ := match n.fx with
    | none => (n.x + v.1, v.1)
    | some fx => (fx, 0)
  let yPart : ℚ × ℚ := match n.fy with
    | none => (n.y + v.2, v.2)
    | some fy => (fy, 0)
  { n with x := xPart.1, vx := xPart.2, y := yPart.1, vy := yPart.2 }

/-- One step of the interaction/simulation machine.  With a single pointer,
`event.active` is `0` at every 'start' and 'end', so 'start' raises
`alphaTarget` to `0.3` and 'end' lowers it to `0`; 'start' pins the subject
at its current position, 'drag' moves the pin to the pointer, 'end' clears
the pin.  Handler events for a node not held by the current gesture do not
occur with a single pointer and leave the state unchanged. -/
def chartStep (s : DragState) : ChartEv → DragState
  | ChartEv.dragStart i =>
      if s.dragged.isSome then s
      else
        { s with
            alphaTarget := 3/10
            dragged := some i
            nodes := s.nodes.map (fun n =>
              if n.pubkey = i then { n with fx := some n.x, fy := some n.y } else n) }
  | ChartEv.dragMove i px py =>
      if s.dragged = some i then
        { s with nodes := s.nodes.map (fun n =>
            if n.pubkey = i then { n with fx := some px, fy := some py } else n) }
      else s
  | ChartEv.dragEnd i =>
      if s.dragged = some i then
        { s with
            alphaTarget := 0
            dragged := none
            nodes := s.nodes.map (fun n =>
              if n.pubkey = i then { n with fx := none, fy := none } else n) }
      else s
  | ChartEv.tick f =>
      { s with nodes := s.nodes.map (fun n => integrateNode (f n.pubkey) n) }

/-- Run a sequence of events. -/
def chartRun (s : DragState) (evs : List ChartEv) : DragState :=
  evs.foldl chartStep s

/-- The interaction state right after the simulation is (re)built: fresh
nodes, no gesture in progress, alpha target at its default `0`. -/
def initDragState (data : List Profile) : DragState :=
  { nodes := data.map (mkNode data), alphaTarget := 0, dragged := none }

/-- States the machine can reach from a freshly built simulation. -/
def ReachableDrag (data : List Profile) (s : DragState) : Prop :=
  ∃ evs : List ChartEv, s = chartRun (initDragState data) evs

/-! Section: pan/zoom viewport.

The chart attaches `d3.zoom().scaleExtent([0.1, 10])` (BubbleChart.tsx
lines 75-81) and resets to `d3.zoomIdentity` on double-click (lines 84-89).
d3-zoom constrains every scale it installs to the configured extent by
`k = max(extent[0], min(extent[1], k))`; a wheel/pinch gesture multiplies
the current scale before that clamp and keeps the pointer's simulation
point fixed; a pan translates.  The element starts at the identity
transform. -/

/-- Lower bound of `scaleExtent([0.1, 10])`. -/
def SCALE_EXTENT_LO : ℚ := 1/10

/-- Upper bound of `scaleExtent([0.1, 10])`. -/
def SCALE_EXTENT_HI : ℚ := 10

/-- d3-zoom's constraint of a requested scale to the configured extent. -/
def clampScale (k : ℚ) : ℚ := max SCALE_EXTENT_LO (min SCALE_EXTENT_HI k)

/-- Viewport gestures: a wheel/pinch zoom multiplying the scale by an
arbitrary factor `k` about the pointer `(px, py)`, a pan, and the
double-click reset to the identity transform. -/
inductive ZoomEv where
  | wheel (k px py : ℚ)
  | pan (dx dy : ℚ)
  | dblclickReset

/-- One d3-zoom gesture applied to the current transform.  A wheel gesture
requests scale `t.scale * k`, which d3 clamps to the extent and then
re-translates so the pointer's pre-image stays fixed; a pan only
translates; the double-click handler installs `d3.zoomIdentity`. -/
def zoomStep (t : ViewportTransform) : ZoomEv → ViewportTransform
  | ZoomEv.wheel k px py =>
      let k2 := clampScale (t.scale * k)
      { scale := k2
        translateX := px - (px - t.translateX) / t.scale * k2
        translateY := py - (py - t.translateY) / t.scale * k2 }
  | ZoomEv.pan dx dy =>
      { t with translateX := t.translateX + dx, translateY := t.translateY + dy }
  | ZoomEv.dblclickReset => ViewportTransform.identity

/-- The viewport transform after a sequence of gestures, starting from the
element's initial identity transform. -/
def zoomRun (evs : List ZoomEv) : ViewportTransform :=
  evs.foldl zoomStep ViewportTransform.identity

/-! Section: statistics panel (StatsPanel.tsx lines 17-49). -/

/-- Source expression `profiles.reduce((sum, profile) => sum + profile.activity, 0)`. -/
def totalEventsOf (ps : List Profile) : ℚ :=
  ps.foldl (fun sum p => sum + p.activity) 0

/-- The values the statistics panel computes for a non-empty profile list.
`averageEvents` and `activePercent` are kept as JavaScript numbers so that
a division by zero would be visible as `Infinity`/`NaN`. -/
structure StatsData where
  totalProfiles : ℕ
  activeProfiles : ℕ
  totalEvents : ℚ
  averageEvents : JsNum
  activePercent : JsNum
  mostActive : Option Profile
deriving DecidableEq, Repr

/-- The body of `StatsPanel`: `if (!profiles.length) return null;` then
`totalProfiles = profiles.length`,
`activeProfiles = profiles.filter(p => p.activity > 0).length`,
`totalEvents = profiles.reduce((sum, p) => sum + p.activity, 0)`,
`averageEvents = totalEvents / totalProfiles`,
`mostActiveProfile = [...profiles].sort((a, b) => b.activity - a.activity)[0]`,
and the rendered percentage `Math.round(activeProfiles / totalProfiles * 100)`. -/
def statsPanel (profiles : List Profile) : Option StatsData :=
  if profiles.isEmpty then none
  else
    let totalProfiles := profiles.length
    let activeProfiles := (profiles.filter (fun p => p.activity > 0)).length
    let totalEvents := totalEventsOf profiles
    some
      { totalProfiles := totalProfiles
        activeProfiles := activeProfiles
        totalEvents := totalEvents
        averageEvents :=
          JsNum.div (JsNum.num totalEvents) (JsNum.num totalProfiles)
        activePercent :=
          JsNum.round
            (JsNum.mul
              (JsNum.div (JsNum.num activeProfiles) (JsNum.num totalProfiles))
              (JsNum.num 100))
        mostActive :=
          (profiles.mergeSort (fun a b => decide (b.activity ≤ a.activity))).head? }

/-! Section: the pinning invariant of the drag machine. -/

/-- The pinning invariant: when no gesture is active no node is pinned;
while a gesture holds node `i`, exactly the nodes named `i` carry a pin. -/
def PinInv (s : DragState) : Prop :=
  match s.dragged with
  | none => ∀ n ∈ s.nodes, n.fx = none ∧ n.fy = none
  | some i => ∀ n ∈ s.nodes,
      (n.pubkey ≠ i → n.fx = none ∧ n.fy = none) ∧
      (n.pubkey = i → n.fx.isSome ∧ n.fy.isSome)

/-- Concrete drag scenario: a fresh simulation over the two-profile set,
after the drag-start handler fired for node `b`. -/
def dragDemoState : DragState :=
  chartStep (initDragState dataZeroTen) (ChartEv.dragStart "b")

theorem integrateNode_fx (v : ℚ × ℚ) (n : VizNode) :
    (integrateNode v n).fx = n.fx := by
  simp only [integrateNode]

theorem integrateNode_fy (v : ℚ × ℚ) (n : VizNode) :
    (integrateNode v n).fy = n.fy := by
  simp only [integrateNode]

theorem integrateNode_pubkey (v : ℚ × ℚ) (n : VizNode) :
    (integrateNode v n).pubkey = n.pubkey := by
  simp only [integrateNode]

/-- A node whose two axes are pinned snaps to the pin on integration. -/
theorem integrateNode_pinned (v : ℚ × ℚ) (n : VizNode) (a b : ℚ)
    (hx : n.fx = some a) (hy : n.fy = some b) :
    (integrateNode v n).x = a ∧ (integrateNode v n).y = b := by
  simp [integrateNode, hx, hy]

/-- A free node integrates by its velocity. -/
theorem integrateNode_free (v : ℚ × ℚ) (n : VizNode)
    (hx : n.fx = none) (hy : n.fy = none) :
    (integrateNode v n).x = n.x + v.1 ∧ (integrateNode v n).y = n.y + v.2 := by
  simp [integrateNode, hx, hy]

theorem pinInv_init (data : List Profile) : PinInv (initDragState data) := by
  intro n hn
  rcases List.mem_map.mp hn with ⟨p, _, rfl⟩
  exact ⟨rfl, rfl⟩

theorem pinInv_step (s : DragState) (e : ChartEv) (h : PinInv s) :
    PinInv (chartStep s e) := by
  cases e with
  | dragStart i =>
      rcases hd : s.dragged with _ | j
      · have hs : s.dragged.isSome = false := by simp [hd]
        unfold PinInv at h
        rw [hd] at h
        unfold PinInv
        simp only [chartStep, hs, Bool.false_eq_true, if_false]
        intro n hn
        rcases List.mem_map.mp hn with ⟨m, hm, rfl⟩
        by_cases hp : m.pubkey = i
        · simp [hp]
        · simp [hp, (h m hm).1, (h m hm).2]
      · have hs : s.dragged.isSome = true := by simp [hd]
        simpa [chartStep, hs] using h
  | dragMove i px py =>
      by_cases hd : s.dragged = some i
      · unfold PinInv at h
        rw [hd] at h
        unfold PinInv
        simp only [chartStep, hd, if_true]
        intro n hn
        rcases List.mem_map.mp hn with ⟨m, hm, rfl⟩
        by_cases hp : m.pubkey = i
        · simp [hp]
        · simp [hp, (h m hm).1 hp]
      · simpa [chartStep, hd] using h
  | dragEnd i =>
      by_cases hd : s.dragged = some i
      · unfold PinInv at h
        rw [hd] at h
        unfold PinInv
        simp only [chartStep, hd, if_true]
        intro n hn
        rcases List.mem_map.mp hn with ⟨m, hm, rfl⟩
        by_cases hp : m.pubkey = i
        · simp [hp]
        · simp [hp, (h m hm).1 hp]
      · simpa [chartStep, hd] using h
  | tick f =>
      unfold PinInv at h ⊢
      rcases hd : s.dragged with _ | j
      · rw [hd] at h
        simp only [chartStep, hd]
        intro n hn
        rcases List.mem_map.mp hn with ⟨m, hm, rfl⟩
        simp [integrateNode_fx, integrateNode_fy, (h m hm).1, (h m hm).2]
      · rw [hd] at h
        simp only [chartStep, hd]
        intro n hn
        rcases List.mem_map.mp hn with ⟨m, hm, rfl⟩
        refine ⟨fun hp => ?_, fun hp => ?_⟩
        · rw [integrateNode_pubkey] at hp
          simp [integrateNode_fx, integrateNode_fy, (h m hm).1 hp]
        · rw [integrateNode_pubkey] at hp
          simp [integrateNode_fx, integrateNode_fy, (h m hm).2 hp]

theorem pinInv_run (s : DragState) (evs : List ChartEv) (h : PinInv s) :
    PinInv (chartRun s evs) := by
  induction evs generalizing s with
  | nil => exact h
  | cons e rest ih => exact ih (chartStep s e) (pinInv_step s e h)

theorem pinInv_reachable (data : List Profile) (s : DragState)
    (h : ReachableDrag data s) : PinInv s := by
  rcases h with ⟨evs, rfl⟩
  exact pinInv_run _ evs (pinInv_init data)

/-! Section: claims about the drag gesture. -/

/-- C5.  While a drag gesture holds node `X` in any state reachable from a
freshly built simulation: every node other than `X` is unpinned; on every
simulation tick each `X` node's position coincides with its pin `(fx, fy)`;
a drag-move moves `X`'s pin to the pointer; and at drag-start the pin is
installed at the node's current `(x, y)`. -/
theorem c5_pinning_invariant (data : List Profile) (s : DragState)
    (i : String) (hr : ReachableDrag data s) (hd : s.dragged = some i) :
    (∀ n ∈ s.nodes, n.pubkey ≠ i → n.fx = none ∧ n.fy = none) ∧
    (∀ f : String → ℚ × ℚ, ∀ n ∈ (chartStep s (ChartEv.tick f)).nodes,
        n.pubkey = i → some n.x = n.fx ∧ some n.y = n.fy) ∧
    (∀ px py : ℚ, ∀ n ∈ s.nodes, n.pubkey = i →
        { n with fx := some px, fy := some py } ∈
          (chartStep s (ChartEv.dragMove i px py)).nodes) ∧
    (∀ t : DragState, t.dragged = none → ∀ m ∈ t.nodes, m.pubkey = i →
        { m with fx := some m.x, fy := some m.y } ∈
          (chartStep t (ChartEv.dragStart i)).nodes) := by
  have inv := pinInv_reachable data s hr
  unfold PinInv at inv
  rw [hd] at inv
  refine ⟨fun n hn hp => (inv n hn).1 hp, ?_, ?_, ?_⟩
  · intro f n hn hp
    simp only [chartStep] at hn
    rcases List.mem_map.mp hn with ⟨m, hm, rfl⟩
    rw [integrateNode_pubkey] at hp
    have hsome := (inv m hm).2 hp
    rcases Option.isSome_iff_exists.mp hsome.1 with ⟨a, ha⟩
    rcases Option.isSome_iff_exists.mp hsome.2 with ⟨b, hb⟩
    have hpos := integrateNode_pinned (f m.pubkey) m a b ha hb
    rw [integrateNode_fx, integrateNode_fy, hpos.1, hpos.2, ha, hb]
    exact ⟨rfl, rfl⟩
  · intro px py n hn hp
    simp only [chartStep, hd, if_true]
    have := List.mem_map_of_mem
      (fun n => if n.pubkey = i then { n with fx := some px, fy := some py } else n) hn
    simpa [hp] using this
  · intro t ht m hm hp
    have hs : t.dragged.isSome = false := by simp [ht]
    simp only [chartStep, hs, Bool.false_eq_true, if_false]
    have := List.mem_map_of_mem
      (fun n => if n.pubkey = i then { n with fx := some n.x, fy := some n.y } else n) hm
    simpa [hp] using this

/-- C5 witness: the pinning invariant evaluated on the concrete state in
which node `b` of the two-profile set has just been grabbed. -/
theorem c5_pinning_invariant_witness :
    ReachableDrag dataZeroTen dragDemoState ∧
    dragDemoState.dragged = some "b" ∧
    ((∀ n ∈ dragDemoState.nodes, n.pubkey ≠ "b" → n.fx = none ∧ n.fy = none) ∧
     (∀ f : String → ℚ × ℚ, ∀ n ∈ (chartStep dragDemoState (ChartEv.tick f)).nodes,
         n.pubkey = "b" → some n.x = n.fx ∧ some n.y = n.fy) ∧
     (∀ px py : ℚ, ∀ n ∈ dragDemoState.nodes, n.pubkey = "b" →
         { n with fx := some px, fy := some py } ∈
           (chartStep dragDemoState (ChartEv.dragMove "b" px py)).nodes) ∧
     (∀ t : DragState, t.dragged = none → ∀ m ∈ t.nodes, m.pubkey = "b" →
         { m with fx := some m.x, fy := some m.y } ∈
           (chartStep t (ChartEv.dragStart "b")).nodes)) :=
  ⟨⟨[ChartEv.dragStart "b"], rfl⟩, rfl,
    c5_pinning_invariant dataZeroTen dragDemoState "b"
      ⟨[ChartEv.dragStart "b"], rfl⟩ rfl⟩

/-- C6.  Firing the drag-end handler while a gesture holds node `X` clears
the pinned position of every `X` node, resets `alphaTarget` to `0`, ends
the gesture, and on the next tick every `X` node integrates freely
(position advances by the tick's velocity instead of a pin). -/
theorem c6_drag_end_unpins (s : DragState) (i : String)
    (hd : s.dragged = some i) :
    (∀ n ∈ (chartStep s (ChartEv.dragEnd i)).nodes, n.pubkey = i →
        n.fx = none ∧ n.fy = none) ∧
    (chartStep s (ChartEv.dragEnd i)).alphaTarget = 0 ∧
    (chartStep s (ChartEv.dragEnd i)).dragged = none ∧
    (∀ f : String → ℚ × ℚ, ∀ n ∈ (chartStep s (ChartEv.dragEnd i)).nodes,
        n.pubkey = i →
        { n with x := n.x + (f n.pubkey).1, vx := (f n.pubkey).1,
                 y := n.y + (f n.pubkey).2, vy := (f n.pubkey).2 } ∈
          (chartStep (chartStep s (ChartEv.dragEnd i)) (ChartEv.tick f)).nodes) := by
  have hclear : ∀ n ∈ (chartStep s (ChartEv.dragEnd i)).nodes, n.pubkey = i →
      n.fx = none ∧ n.fy = none := by
    intro n hn hp
    simp only [chartStep, hd, if_true] at hn
    rcases List.mem_map.mp hn with ⟨m, hm, rfl⟩
    by_cases hq : m.pubkey = i
    · simp [hq]
    · rw [if_neg hq] at hp
      exact absurd hp hq
  refine ⟨hclear, by simp [chartStep, hd], by simp [chartStep, hd], ?_⟩
  intro f n hn hp
  have hfree := hclear n hn hp
  rw [show (chartStep (chartStep s (ChartEv.dragEnd i)) (ChartEv.tick f)).nodes =
      ((chartStep s (ChartEv.dragEnd i)).nodes).map
        (fun m => integrateNode (f m.pubkey) m) from rfl]
  have hmem : integrateNode (f n.pubkey) n ∈
      List.map (fun m => integrateNode (f m.pubkey) m)
        (chartStep s (ChartEv.dragEnd i)).nodes :=
    List.mem_map_of_mem (fun m => integrateNode (f m.pubkey) m) hn
  have heq : integrateNode (f n.pubkey) n =
      { n with x := n.x + (f n.pubkey).1, vx := (f n.pubkey).1,
               y := n.y + (f n.pubkey).2, vy := (f n.pubkey).2 } := by
    simp [integrateNode, hfree.1, hfree.2]
  rwa [heq] at hmem

/-- C6 witness: releasing node `b` in the concrete grabbed state clears its
pin, zeroes the alpha target, and frees its next integration step. -/
theorem c6_drag_end_unpins_witness :
    dragDemoState.dragged = some "b" ∧
    ((∀ n ∈ (chartStep dragDemoState (ChartEv.dragEnd "b")).nodes,
        n.pubkey = "b" → n.fx = none ∧ n.fy = none) ∧
     (chartStep dragDemoState (ChartEv.dragEnd "b")).alphaTarget = 0 ∧
     (chartStep dragDemoState (ChartEv.dragEnd "b")).dragged = none ∧
     (∀ f : String → ℚ × ℚ,
        ∀ n ∈ (chartStep dragDemoState (ChartEv.dragEnd "b")).nodes,
        n.pubkey = "b" →
        { n with x := n.x + (f n.pubkey).1, vx := (f n.pubkey).1,
                 y := n.y + (f n.pubkey).2, vy := (f n.pubkey).2 } ∈
          (chartStep (chartStep dragDemoState (ChartEv.dragEnd "b"))
            (ChartEv.tick f)).nodes)) :=
  ⟨rfl, c6_drag_end_unpins dragDemoState "b" rfl⟩

/-! Section: claims about the viewport and the statistics panel. -/

theorem clampScale_mem (k : ℚ) :
    SCALE_EXTENT_LO ≤ clampScale k ∧ clampScale k ≤ SCALE_EXTENT_HI := by
  constructor
  · exact le_max_left _ _
  · exact max_le (by norm_num [SCALE_EXTENT_LO, SCALE_EXTENT_HI])
      (min_le_left _ _)

theorem zoomStep_scale_bounded (t : ViewportTransform) (e : ZoomEv)
    (h : SCALE_EXTENT_LO ≤ t.scale ∧ t.scale ≤ SCALE_EXTENT_HI) :
    SCALE_EXTENT_LO ≤ (zoomStep t e).scale ∧
    (zoomStep t e).scale ≤ SCALE_EXTENT_HI := by
  cases e with
  | wheel k px py => exact clampScale_mem (t.scale * k)
  | pan dx dy => exact h
  | dblclickReset =>
      norm_num [zoomStep, ViewportTransform.identity, SCALE_EXTENT_LO,
        SCALE_EXTENT_HI]

/-- C7.  Starting from the identity transform, after any sequence of zoom,
pan and double-click-reset gestures of arbitrary magnitude, the viewport
scale stays inside `[0.1, 10]`: requested scales are silently clamped to
the extent, never rejected. -/
theorem c7_scale_never_leaves_extent (evs : List ZoomEv) :
    SCALE_EXTENT_LO ≤ (zoomRun evs).scale ∧
    (zoomRun evs).scale ≤ SCALE_EXTENT_HI := by
  have gen : ∀ t : ViewportTransform,
      SCALE_EXTENT_LO ≤ t.scale ∧ t.scale ≤ SCALE_EXTENT_HI →
      SCALE_EXTENT_LO ≤ (evs.foldl zoomStep t).scale ∧
      (evs.foldl zoomStep t).scale ≤ SCALE_EXTENT_HI := by
    induction evs with
    | nil => exact fun t h => h
    | cons e rest ih =>
        exact fun t h => ih (zoomStep t e) (zoomStep_scale_bounded t e h)
  exact gen ViewportTransform.identity
    (by norm_num [ViewportTransform.identity, SCALE_EXTENT_LO, SCALE_EXTENT_HI])

/-- C10.  The statistics panel returns `null` for the empty profile list,
and for every non-empty list its denominators equal the positive profile
count, so the average event count and the active-profile percentage are
finite numbers (never `Infinity` or `NaN`). -/
theorem c10_stats_no_division_by_zero :
    statsPanel [] = none ∧
    ∀ ps : List Profile, ps ≠ [] →
      ∃ s, statsPanel ps = some s ∧
        s.totalProfiles = ps.length ∧
        0 < s.totalProfiles ∧
        s.averageEvents = JsNum.num (totalEventsOf ps / (ps.length : ℚ)) ∧
        (∃ r : ℚ, s.activePercent = JsNum.num r) := by
  constructor
  · simp [statsPanel]
  · intro ps hps
    have hne : ps.isEmpty = false := by
      cases ps with
      | nil => exact absurd rfl hps
      | cons a l => rfl
    have hpos : 0 < ps.length := by
      cases ps with
      | nil => exact absurd rfl hps
      | cons a l => exact Nat.succ_pos _
    have hcast : ((ps.length : ℚ)) ≠ 0 := by
      exact_mod_cast Nat.pos_iff_ne_zero.mp hpos
    simp only [statsPanel, hne, Bool.false_eq_true, if_false]
    refine ⟨_, rfl, rfl, hpos, ?_, ?_⟩
    · simp [JsNum.div, hcast]
    · refine ⟨⌊(((ps.filter (fun p => p.activity > 0)).length : ℚ) /
          (ps.length : ℚ) * 100) + 1/2⌋, ?_⟩
      simp [JsNum.div, JsNum.mul, JsNum.round, hcast]

/-- C10 witness: the singleton list is rendered with denominator `1`. -/
theorem c10_stats_no_division_by_zero_witness :
    [profA 3] ≠ [] ∧
    (∃ s, statsPanel [profA 3] = some s ∧
        s.totalProfiles = [profA 3].length ∧
        0 < s.totalProfiles ∧
        s.averageEvents =
          JsNum.num (totalEventsOf [profA 3] / ([profA 3].length : ℚ)) ∧
        (∃ r : ℚ, s.activePercent = JsNum.num r)) :=
  ⟨by simp, c10_stats_no_division_by_zero.2 [profA 3] (by simp)⟩

/-! Section: claims about the sizing normalizer. -/

/-- C1.  The claim says every radius lies in `[10, 60]`, including for a
zero-score profile alongside distinct positive scores.  On the profile set
with activities `[0, 5, 10]` the code emits the radii `[-40, 10, 60]`:
the zero-score profile gets `10 + (0 - 5)/(10 - 5) * 50 = -40`, far below
`MIN_R`, contradicting both the claim and the source's own comment
"Scale activity values between 10 and 60". -/
theorem c1_zero_score_radius_escapes_range :
    normalizeRadii dataZeroFiveTen =
      [JsNum.num (-40), JsNum.num 10, JsNum.num 60] ∧
    radiusInRange (JsNum.num (-40)) = false := by
  constructor
  · norm_num [normalizeRadii, normalizeActivity, maxActivity, minActivity,
      dataZeroFiveTen, profA, profB, profC, JsNum.maxList, JsNum.minList,
      JsNum.max2, JsNum.min2, JsNum.strictEq, JsNum.add, JsNum.sub, JsNum.mul,
      JsNum.div, MIN_BUBBLE_SIZE, MAX_BUBBLE_SIZE]
  · decide

/-- C2.  The claim says the all-zero profile set yields radius `35` for
every node, never an undefined value.  On the all-zero two-profile set the
code computes `maxActivity = 0` but `minActivity = Infinity` (zero scores
are mapped to `Infinity` before the min), so the degenerate-case guard
`maxActivity === minActivity` is false and the formula evaluates
`(0 - ∞)/(0 - ∞) = NaN`: every radius is `NaN`, not `35`. -/
theorem c2_all_zero_set_yields_nan :
    normalizeRadii dataAllZero = [JsNum.nan, JsNum.nan] ∧
    radiusInRange JsNum.nan = false := by
  decide

/-- C3 counterexample.  The claim says the set
`[{id:"a",activityScore:0}, {id:"b",activityScore:10}]` gets
`radius(a) = MIN_R` and `radius(b) = MAX_R`.  It does not: excluding the
zero score makes `minActivity = 10 = maxActivity`, so the degenerate-case
branch fires and both radii are `35`. -/
theorem c3_endpoints_scenario_false :
    ¬ (normalizeActivity dataZeroTen (JsNum.num 0) = MIN_BUBBLE_SIZE ∧
       normalizeActivity dataZeroTen (JsNum.num 10) = MAX_BUBBLE_SIZE) := by
  intro h
  have h1 := h.1
  norm_num [normalizeActivity, maxActivity, minActivity, dataZeroTen, profA,
    profB, JsNum.maxList, JsNum.minList, JsNum.max2, JsNum.min2,
    JsNum.strictEq, JsNum.add, JsNum.sub, JsNum.mul, JsNum.div,
    MIN_BUBBLE_SIZE, MAX_BUBBLE_SIZE] at h1

/-- C3 amended.  On `[{id:"a",activityScore:0}, {id:"b",activityScore:10}]`
the normalizer returns the degenerate midpoint radius
`(MIN_R + MAX_R) / 2 = 35` for both profiles, because `minA` excludes the
zero-score profile, making `minA = maxA = 10`. -/
theorem c3_amended_midpoint_radii :
    normalizeActivity dataZeroTen (JsNum.num 0) = JsNum.num 35 ∧
    normalizeActivity dataZeroTen (JsNum.num 10) = JsNum.num 35 := by
  constructor <;>
    norm_num [normalizeActivity, maxActivity, minActivity, dataZeroTen, profA,
      profB, JsNum.maxList, JsNum.minList, JsNum.max2, JsNum.min2,
      JsNum.strictEq, JsNum.add, JsNum.sub, JsNum.mul, JsNum.div,
      MIN_BUBBLE_SIZE, MAX_BUBBLE_SIZE]

/-! Section: claims about the rebuild effect. -/

/-- C4.  Delivering a new profile set re-runs the effect, which clears the
svg's children and rebuilds nodes and simulation, but the pan/zoom camera
state survives: the transform lives on the persistent svg element itself
and re-attaching the zoom behavior keeps an existing transform (defaulting
only a never-touched element to the identity).  For every delivered set and
every prior element state, the observable viewport transform after the
rebuild equals the one before it. -/
theorem c4_rebuild_preserves_viewport (data : List Profile) (s : SvgState) :
    (runEffect data s).viewport = s.viewport := by
  by_cases h : data.isEmpty <;>
    simp [runEffect, h, SvgState.viewport, Option.getD]

/-- C8.  An empty profile set is not an error: the effect's empty-data
branch renders zero node groups, starts no force simulation (the
simulation state stays `Idle`), and shows the placeholder text instead. -/
theorem c8_empty_set_idle_placeholder (s : SvgState) :
    (runEffect [] s).nodes = [] ∧
    (runEffect [] s).simStatus = SimStatus.Idle ∧
    (runEffect [] s).placeholder = true := by
  simp [runEffect]

/-- C9.  Normalization is an idempotent, stateless pure function of the
delivered profile set: rebuilding twice with the same set emits exactly the
radii of rebuilding once, and the emitted radii do not depend on any state
left behind by earlier rebuilds. -/
theorem c9_normalization_idempotent_stateless (data : List Profile)
    (s t : SvgState) :
    (runEffect data (runEffect data s)).radii = (runEffect data s).radii ∧
    (runEffect data s).radii = (runEffect data t).radii := by
  by_cases h : data.isEmpty <;>
    simp [runEffect, h, SvgState.radii]
